import Mathlib

/-!
Verification of the dex-swap-bot sources (`src/src/TelegramBot.py`,
`src/src/SwapCoffeeAPI.py`, `src/src/TransactionHandler.py`) against the
natural-language specification.  The Python handlers are shallowly embedded
as pure Lean functions over an explicit session record; chat-transport
bookkeeping (message ids, prompt deletion) is represented as emitted
effects rather than session fields, since no claim concerns it.
-/

/-- Model of a Python `float` value as produced by `float(str)`.  Finite
literals are kept as exact rationals (binary64 rounding is not modelled;
none of the verified properties depends on rounding), and the special
values `inf`, `-inf` and `nan` are explicit constructors. -/
inductive PyFloat where
  | finite (q : ℚ)
  | inf
  | negInf
  | nan
deriving DecidableEq, Repr

/-- Python `<` on floats: `nan` compares false with everything. -/
def pyLt : PyFloat → PyFloat → Bool
  | PyFloat.nan, _ => false
  | _, PyFloat.nan => false
  | PyFloat.negInf, PyFloat.negInf => false
  | PyFloat.negInf, _ => true
  | _, PyFloat.negInf => false
  | PyFloat.inf, _ => false
  | PyFloat.finite _, PyFloat.inf => true
  | PyFloat.finite a, PyFloat.finite b => decide (a < b)

/-- Python `<=` on floats: `nan` compares false with everything. -/
def pyLe : PyFloat → PyFloat → Bool
  | PyFloat.nan, _ => false
  | _, PyFloat.nan => false
  | PyFloat.negInf, _ => true
  | _, PyFloat.negInf => false
  | _, PyFloat.inf => true
  | PyFloat.inf, _ => false
  | PyFloat.finite a, PyFloat.finite b => decide (a ≤ b)

/-- Whitespace characters removed by Python `str.strip()`. -/
def isPySpace (c : Char) : Bool :=
  c = ' ' || c = '\t' || c = '\n' || c = '\x0d' || c = '\x0b' || c = '\x0c'

/-- Python `str.strip()`: drop leading and trailing whitespace. -/
def pyStrip (s : String) : String :=
  String.mk (((s.data.dropWhile isPySpace).reverse.dropWhile isPySpace).reverse)

/-- Test for an ASCII lowercase letter (codepoints 97–122). -/
def isAsciiLower (c : Char) : Bool :=
  decide (97 ≤ c.toNat) && decide (c.toNat ≤ 122)

/-- Python `str.upper()` modelled per character on the ASCII range via
`Char.toUpper` (non-ASCII characters are left unchanged; Python's full
Unicode uppercasing agrees on ASCII, which is all the registry keys and
claims use). -/
def pyUpper (s : String) : String :=
  String.mk (s.data.map Char.toUpper)

/-- `s` contains at least one ASCII lowercase letter. -/
def hasAsciiLower (s : String) : Bool :=
  s.data.any isAsciiLower

def isAsciiDigit (c : Char) : Bool :=
  decide (48 ≤ c.toNat) && decide (c.toNat ≤ 57)

/-- Numeric value of a digit string (most significant first). -/
def digitsVal (cs : List Char) : Nat :=
  cs.foldl (fun a c => a * 10 + (c.toNat - 48)) 0

/-- Python `int(str)` on an already-stripped string: an optional sign
followed by a nonempty digit run (underscore separators and non-ASCII
digits are not modelled; the bot never feeds them in the verified
scenarios). -/
def pyParseInt (s : String) : Option Int :=
  let core : List Char → Option Int := fun cs =>
    let ds := cs.takeWhile isAsciiDigit
    let rest := cs.dropWhile isAsciiDigit
    if ds = [] ∨ rest ≠ [] then none else some (Int.ofNat (digitsVal ds))
  match s.data with
  | '+' :: t => core t
  | '-' :: t => (core t).map (fun v => -v)
  | t => core t

/-- Exponent suffix of a Python float literal: empty, or `e`/`E` followed by
an optionally signed nonempty digit run consuming the rest. -/
def parseExpPart (cs : List Char) : Option Int :=
  let digitsOnly : List Char → Option Int := fun ds =>
    let run := ds.takeWhile isAsciiDigit
    let rest := ds.dropWhile isAsciiDigit
    if run = [] ∨ rest ≠ [] then none else some (Int.ofNat (digitsVal run))
  match cs with
  | [] => some 0
  | 'e' :: t =>
    (match t with
     | '+' :: u => digitsOnly u
     | '-' :: u => (digitsOnly u).map (fun v => -v)
     | u => digitsOnly u)
  | 'E' :: t =>
    (match t with
     | '+' :: u => digitsOnly u
     | '-' :: u => (digitsOnly u).map (fun v => -v)
     | u => digitsOnly u)
  | _ => none

/-- Value of the decimal literal `mantissa × 10 ^ shift` as an exact
rational, written with `mkRat` and natural-number powers so that concrete
instances reduce in the kernel. -/
def decToRat (mantissa : Nat) (shift : Int) : ℚ :=
  if 0 ≤ shift then ((mantissa * 10 ^ shift.toNat : Nat) : ℚ)
  else mkRat (Int.ofNat mantissa) (10 ^ (-shift).toNat)

/-- Unsigned numeric part of a Python float literal:
`digits [. digits] [exp]` or `. digits [exp]`, exactly consumed; the value
is the mantissa digits scaled by the exponent minus the fraction length. -/
def parseFloatMagnitude (cs : List Char) : Option ℚ :=
  let ip := cs.takeWhile isAsciiDigit
  let rest := cs.dropWhile isAsciiDigit
  match rest with
  | [] => if ip = [] then none else some ((digitsVal ip : ℚ))
  | '.' :: t =>
    let fp := t.takeWhile isAsciiDigit
    let rest2 := t.dropWhile isAsciiDigit
    if ip = [] ∧ fp = [] then none
    else
      (parseExpPart rest2).map (fun e => decToRat (digitsVal (ip ++ fp)) (e - fp.length))
  | _ =>
    if ip = [] then none
    else (parseExpPart rest).map (fun e => decToRat (digitsVal ip) e)

/-- Python `float(str)` on an already-stripped string: optional sign, then
either a case-insensitive `inf`/`infinity`/`nan` or a decimal literal. -/
def pyParseFloat (s : String) : Option PyFloat :=
  let unsigned : List Char → Bool → Option PyFloat := fun cs neg =>
    let lower := String.mk (cs.map Char.toLower)
    if lower = "inf" ∨ lower = "infinity" then
      some (if neg then PyFloat.negInf else PyFloat.inf)
    else if lower = "nan" then some PyFloat.nan
    else
      (parseFloatMagnitude cs).map (fun q =>
        if neg then PyFloat.finite (-q) else PyFloat.finite q)
  match s.data with
  | '+' :: t => unsigned t false
  | '-' :: t => unsigned t true
  | t => unsigned t false

/-- One entry of the token list returned by the aggregator API
(`token["metadata"]["symbol"]` and `token["address"]["address"]`). -/
structure TokenInfo where
  symbol : String
  address : String
deriving DecidableEq, Repr

/-- The in-memory token registry `TOKENS`: a symbol-to-address dictionary,
modelled as an association list with Python-dict insertion (a repeated key
overwrites the earlier binding). -/
def Registry : Type := List (String × String)

instance : DecidableEq Registry := by
  unfold Registry
  exact inferInstance

/-- Python dict insertion: replace the binding of `k` if present, else
append it. -/
def dictInsert (d : List (String × String)) (k v : String) : List (String × String) :=
  if d.any (fun p => p.1 = k) then
    d.map (fun p => if p.1 = k then (k, v) else p)
  else d ++ [(k, v)]

/-- The dict comprehension in `_load_tokens`: keep every token whose
address string is nonempty (Python truthiness of `token["address"]["address"]`),
keyed by its symbol exactly as delivered. -/
def buildTokens (l : List TokenInfo) : Registry :=
  (l.filter (fun t => t.address ≠ "")).foldl (fun d t => dictInsert d t.symbol t.address) []

/-- Keys of a registry. -/
def registryKeys (d : Registry) : List String :=
  (d : List (String × String)).map Prod.fst

/-- `_is_valid_token` from TelegramBot.py: `token in TOKENS`. -/
def _is_valid_token (TOKENS : Registry) (token : String) : Bool :=
  (TOKENS : List (String × String)).any (fun p => p.1 = token)

/-- Transport failure of the aggregator HTTP API; `get_tokens` in
`src/src/SwapCoffeeAPI.py` wraps any `requests` failure into
`SwapCoffeeException` and raises it. -/
inductive SwapCoffeeError where
  | requestException
deriving DecidableEq, Repr

/-- `_load_tokens` from TelegramBot.py, as a function of the previous
registry and the outcome of the `get_tokens()` call: on success the
registry is rebuilt wholesale from the fetched list; on any exception the
`except` branch executes `TOKENS = {}`, clearing the registry. -/
def _load_tokens (_old : Registry) (fetched : Except SwapCoffeeError (List TokenInfo)) :
    Registry :=
  match fetched with
  | Except.ok l => buildTokens l
  | Except.error _ => []

/-- The aiogram FSM states declared in `SwapStates`. -/
inductive SwapState where
  | waiting_input
  | setting_max_splits
  | setting_max_length
  | setting_slippage
  | token1
  | token2
  | amount
  | directiom
  | waiting_for_swap_text
deriving DecidableEq, Repr

/-- Opaque stand-in for the route dictionary returned by the aggregator
and stored via `update_data(route=route)`; its contents are not examined
by any verified claim. -/
structure Route where
  tag : Nat
deriving DecidableEq, Repr

/-- The per-user session: the aiogram FSM state plus the `state.get_data()`
dictionary keys that the embedded handlers read or write.  The message-id
bookkeeping keys (`last_message_id`, `prompt_message_id`) are chat-transport
bookkeeping and are represented as effects instead. -/
structure Session where
  fsm : Option SwapState
  token1 : Option String
  token2 : Option String
  amount : Option PyFloat
  direction : Option String
  slippage : Option PyFloat
  max_splits : Option Int
  max_length : Option Int
  route : Option Route
  rpc_request_id : Option String
  selected_wallet : Option String
  back_state : Option String
  previous_state : Option String
deriving DecidableEq, Repr

/-- Screens rendered by the window functions. -/
inductive Window where
  | connectWallet
  | mainMenu
  | swapMenu
  | swapOptions
  | sendTx
  | invalidTokenMsg
  | invalidAmountMsg
  | maxSplitsOk (v : Int)
  | maxLengthOk (v : Int)
  | slippageOk (q : PyFloat)
  | errorRetry (callbackData : String)
  | routeNotFound
deriving DecidableEq, Repr

/-- Outbound side effects of a handler, in issue order. -/
inductive Effect where
  | render (w : Window)
  | deleteMessage
  | connectWallet
  | cancelPending
  | sendTransaction
deriving DecidableEq, Repr

/-- `swap_menu_window`: defaults `slippage` to `0.05` when absent, records
`back_state="swap_menu"`, and renders the swap menu. -/
def swap_menu_window (s : Session) : Session × List Effect :=
  let s1 := if s.slippage = none then { s with slippage := some (PyFloat.finite (1 / 20)) } else s
  ({ s1 with back_state := some "swap_menu" }, [Effect.render Window.swapMenu])

/-- `swap_options_window`: reads the options with their defaults and renders
them; it writes nothing back to the session. -/
def swap_options_window (s : Session) : Session × List Effect :=
  (s, [Effect.render Window.swapOptions])

/-- `wallet_connected_window`: records `back_state="main_menu"` and renders
the main menu with the connected wallet address. -/
def wallet_connected_window (s : Session) : Session × List Effect :=
  ({ s with back_state := some "main_menu" }, [Effect.render Window.mainMenu])

/-- `connect_wallet_window`: initiates a wallet-connect pairing and renders
the connect prompt; it reads `selected_wallet` but updates no session field
(only the elided `last_message_id`). -/
def connect_wallet_window (s : Session) : Session × List Effect :=
  (s, [Effect.connectWallet, Effect.render Window.connectWallet])

/-- The `Event.DISCONNECT` handler `disconnect_event`: it only re-renders
the connect-wallet window; no session field is cleared or set. -/
def disconnect_event (s : Session) : Session × List Effect :=
  connect_wallet_window s

/-- `token1_input_handler`: strip and uppercase the text, reject it when the
result is not a registry key (session untouched, re-prompt), otherwise store
it in `token1`, show the swap menu and clear the FSM state. -/
def token1_input_handler (TOKENS : Registry) (s : Session) (text : String) :
    Session × List Effect :=
  let token := pyUpper (pyStrip text)
  if _is_valid_token TOKENS token then
    let r := swap_menu_window { s with token1 := some token }
    ({ r.1 with fsm := none }, Effect.deleteMessage :: r.2)
  else
    (s, [Effect.deleteMessage, Effect.render Window.invalidTokenMsg])

/-- `token2_input_handler`: same as `token1_input_handler` for `token2`. -/
def token2_input_handler (TOKENS : Registry) (s : Session) (text : String) :
    Session × List Effect :=
  let token := pyUpper (pyStrip text)
  if _is_valid_token TOKENS token then
    let r := swap_menu_window { s with token2 := some token }
    ({ r.1 with fsm := none }, Effect.deleteMessage :: r.2)
  else
    (s, [Effect.deleteMessage, Effect.render Window.invalidTokenMsg])

/-- `amount_input_handler`: `float(text.strip())`, rejecting a parse failure
or `amount <= 0` (note Python's `nan <= 0` and `inf <= 0` are both false, so
`nan` and `inf` pass the guard); an accepted value is stored in `amount`,
the swap menu is shown and the FSM state cleared. -/
def amount_input_handler (s : Session) (text : String) : Session × List Effect :=
  match pyParseFloat (pyStrip text) with
  | none => (s, [Effect.deleteMessage, Effect.render Window.invalidAmountMsg])
  | some v =>
    if pyLe v (PyFloat.finite 0) then
      (s, [Effect.deleteMessage, Effect.render Window.invalidAmountMsg])
    else
      let r := swap_menu_window { s with amount := some v }
      ({ r.1 with fsm := none }, Effect.deleteMessage :: r.2)

/-- The guard expression of `set_max_splits`, embedded with Python's exact
operator semantics: in `value <= 0 | value > 20` the bitwise `|` binds
tighter than the comparisons, which then chain, so the expression is
`(value <= (0 | value)) and ((0 | value) > 20)`. -/
def set_max_splits_guard (value : Int) : Bool :=
  decide (value ≤ Int.lor 0 value) && decide (Int.lor 0 value > 20)

/-- The guard expression of `set_max_length`, embedded with Python's exact
operator semantics: `value <= 1 | value > 5` is
`(value <= (1 | value)) and ((1 | value) > 5)`. -/
def set_max_length_guard (value : Int) : Bool :=
  decide (value ≤ Int.lor 1 value) && decide (Int.lor 1 value > 5)

/-- `set_max_splits`: `int(text.strip())`; a parse failure or a guard hit
raises `ValueError`, caught by the `except` branch which shows the
range-1-to-20 error window and returns; otherwise `max_splits` is stored
and the options window is shown.  `set_state` is never called, so the FSM
state is unchanged in both branches. -/
def set_max_splits (s : Session) (text : String) : Session × List Effect :=
  match pyParseInt (pyStrip text) with
  | none => (s, [Effect.deleteMessage, Effect.render (Window.errorRetry "set_max_splits")])
  | some v =>
    if set_max_splits_guard v then
      (s, [Effect.deleteMessage, Effect.render (Window.errorRetry "set_max_splits")])
    else
      let r := swap_options_window { s with max_splits := some v }
      (r.1, Effect.deleteMessage :: Effect.render (Window.maxSplitsOk v) :: r.2)

/-- `set_max_length`: same shape as `set_max_splits` with the
range-2-to-5 error window. -/
def set_max_length (s : Session) (text : String) : Session × List Effect :=
  match pyParseInt (pyStrip text) with
  | none => (s, [Effect.deleteMessage, Effect.render (Window.errorRetry "set_max_length")])
  | some v =>
    if set_max_length_guard v then
      (s, [Effect.deleteMessage, Effect.render (Window.errorRetry "set_max_length")])
    else
      let r := swap_options_window { s with max_length := some v }
      (r.1, Effect.deleteMessage :: Effect.render (Window.maxLengthOk v) :: r.2)

/-- `set_slippage`: `float(text.strip())`; rejected when the parse fails or
`value < 0 or value > 1` (both comparisons are false for `nan`, which is
therefore accepted); otherwise `slippage` is stored and the options window
shown. -/
def set_slippage (s : Session) (text : String) : Session × List Effect :=
  match pyParseFloat (pyStrip text) with
  | none => (s, [Effect.deleteMessage, Effect.render (Window.errorRetry "set_slippage")])
  | some v =>
    if pyLt v (PyFloat.finite 0) || pyLt (PyFloat.finite 1) v then
      (s, [Effect.deleteMessage, Effect.render (Window.errorRetry "set_slippage")])
    else
      let r := swap_options_window { s with slippage := some v }
      (r.1, Effect.deleteMessage :: Effect.render (Window.slippageOk v) :: r.2)

/-- JSON values occurring in the route request body. -/
inductive JVal where
  | str (v : String)
  | num (v : PyFloat)
  | obj (fields : List (String × JVal))

/-- `get_swap_route` from `src/src/SwapCoffeeAPI.py`, whose signature is
`(input_address, output_address, amount, is_input=True)`.  The embedded
function returns the JSON request body it posts to `/v1/route`: the
`payload` dict with `input_token` and `output_token`, plus `input_amount`
or `output_amount` according to `is_input`.  No other key is ever added. -/
def get_swap_route (input_address output_address : String) (amount : PyFloat)
    (is_input : Bool) : List (String × JVal) :=
  let payload :=
    [("input_token", JVal.obj [("blockchain", JVal.str "ton"),
                               ("address", JVal.str input_address)]),
     ("output_token", JVal.obj [("blockchain", JVal.str "ton"),
                                ("address", JVal.str output_address)])]
  if is_input then payload ++ [("input_amount", JVal.num amount)]
  else payload ++ [("output_amount", JVal.num amount)]

/-- Keys of a JSON request body. -/
def payloadKeys (p : List (String × JVal)) : List String :=
  p.map Prod.fst

/-- Outcomes of the external calls made while confirming a swap: whether
the transaction build (route prepare) succeeds and whether the wallet
send call succeeds. -/
structure TxOracle where
  prepOk : Bool
  sendOk : Bool
deriving DecidableEq, Repr

/-- Modelled from the spec: `create_swap_transaction` is imported by
TelegramBot.py from TransactionHandler but is absent from the sources
(TransactionHandler.py only defines its sibling `initiate_swap_transaction`).
Per spec section 4.1 the Confirm action calls the Route Planner `prepare()`
and then the Wallet Session Adapter `sendTransaction()`; like the sibling,
the helper receives the connector, sender address, stored route and
slippage — and nothing about `pendingRequestId` — returning the send
response, or `None` when a step fails.  A send attempt is recorded as a
`sendTransaction` effect whether or not it succeeds. -/
def create_swap_transaction (o : TxOracle) (_route : Option Route)
    (_slippage : Option PyFloat) : Option Nat × List Effect :=
  if o.prepOk then
    if o.sendOk then (some 1, [Effect.sendTransaction])
    else (none, [Effect.sendTransaction])
  else (none, [])

/-- `confirm_transaction_handler`: reads the stored route and slippage,
calls `create_swap_transaction`, and renders either the send-transaction
window or an error window.  It never reads, checks or writes
`rpc_request_id`, calls no `update_data`, and sets no FSM state, so the
session is returned unchanged. -/
def confirm_transaction_handler (o : TxOracle) (s : Session) : Session × List Effect :=
  let r := create_swap_transaction o s.route s.slippage
  match r.1 with
  | some _ => (s, r.2 ++ [Effect.render Window.sendTx])
  | none => (s, r.2 ++ [Effect.render (Window.errorRetry "swap_menu")])

/-- Two back-to-back Confirm presses with no intervening event: the second
press runs on the session produced by the first; the effect lists are
concatenated in order. -/
def confirm_twice (o : TxOracle) (s : Session) : Session × List Effect :=
  let r1 := confirm_transaction_handler o s
  let r2 := confirm_transaction_handler o r1.1
  (r2.1, r1.2 ++ r2.2)

/-- Number of wallet `sendTransaction` calls in an effect list. -/
def countSends (l : List Effect) : Nat :=
  (l.filter (fun e => decide (e = Effect.sendTransaction))).length

/-- Result of running a callback branch: normal completion, or an uncaught
exception that aborts the handler after the listed effects, leaving the
session as recorded. -/
inductive HandlerOutcome where
  | ok (s : Session) (effects : List Effect)
  | raised (s : Session) (effects : List Effect)
deriving DecidableEq, Repr

def HandlerOutcome.effects : HandlerOutcome → List Effect
  | HandlerOutcome.ok _ e => e
  | HandlerOutcome.raised _ e => e

def HandlerOutcome.session : HandlerOutcome → Session
  | HandlerOutcome.ok s _ => s
  | HandlerOutcome.raised s _ => s

def HandlerOutcome.completed : HandlerOutcome → Bool
  | HandlerOutcome.ok _ _ => true
  | HandlerOutcome.raised _ _ => false

/-- The `cancel_transaction` branch of `callback_query_handler`: when
`connector.is_transaction_pending(rpc_request_id)` holds it calls
`connector.cancel_pending_transaction(rpc_request_id)` with no surrounding
`try`, so a raising cancel aborts the branch before
`wallet_connected_window` runs; otherwise (and after a successful cancel)
the main-menu window is shown. -/
def cancel_transaction_handler (isPending cancelRaises : Bool) (s : Session) :
    HandlerOutcome :=
  if isPending then
    if cancelRaises then HandlerOutcome.raised s [Effect.cancelPending]
    else
      let r := wallet_connected_window s
      HandlerOutcome.ok r.1 (Effect.cancelPending :: r.2)
  else
    let r := wallet_connected_window s
    HandlerOutcome.ok r.1 r.2

/-- The generic `cancel` branch of `callback_query_handler`: it deletes the
pressed message (exceptions suppressed) and shows the main-menu window; it
never consults `rpc_request_id` and never calls `cancel_pending_transaction`. -/
def cancel_handler (s : Session) : HandlerOutcome :=
  let r := wallet_connected_window s
  HandlerOutcome.ok r.1 (Effect.deleteMessage :: r.2)

/-- The token-resolution step of `process_swap_text`: the extracted
`input_token` and `output_token` fields are uppercased (no strip on this
path) and both must be keys of `TOKENS`, else a `ValueError` is raised. -/
def swap_text_tokens_ok (TOKENS : Registry) (rawInput rawOutput : String) : Bool :=
  _is_valid_token TOKENS (pyUpper rawInput) && _is_valid_token TOKENS (pyUpper rawOutput)

/-- Wallet-protocol failure raised by `connector.send_transaction`
(`TonConnectError` and its `UserRejectsError`/`RequestTimeoutError`
sub-variants). -/
inductive WalletError where
  | userRejects
  | requestTimeout
  | other
deriving DecidableEq, Repr

/-- Failure classes observable inside `initiate_swap_transaction`. -/
inductive InitError where
  | swapCoffee
  | keyError
  | indexError
  | wallet (e : WalletError)
deriving DecidableEq, Repr

/-- The route dictionary as used by `initiate_swap_transaction`:
`route["paths"]` raises `KeyError` when the key is absent, modelled by
`none`; the paths themselves are opaque here. -/
structure RouteDict where
  paths : Option (List Nat)
deriving DecidableEq, Repr

/-- One entry of `prepared["transactions"]` with the fields the code
subscripts (`address`, `value`, `cell`) and the optional `stateInit`
accessed via `.get`. -/
structure TxData where
  address : String
  value : Nat
  cell : String
  stateInit : Option String
deriving DecidableEq, Repr

/-- The prepared-transaction dictionary: `prepared["transactions"]` can be
absent (`KeyError`) and `[0]` on an empty list raises `IndexError`. -/
structure PreparedDict where
  transactions : Option (List TxData)
deriving DecidableEq, Repr

/-- Outcomes of the three external calls made by
`initiate_swap_transaction`: the route fetch, the transaction preparation
and the wallet send. -/
structure SwapOracle where
  routeRes : Except SwapCoffeeError RouteDict
  prepRes : Except SwapCoffeeError PreparedDict
  sendRes : Except WalletError Nat
deriving Repr

/-- The body of the `try` block of `initiate_swap_transaction` in
TransactionHandler.py, step by step: fetch the route, subscript
`route["paths"]`, prepare the transaction, subscript
`prepared["transactions"][0]`, build the message and send it through the
wallet connector. -/
def initiate_body (o : SwapOracle) : Except InitError Nat :=
  match o.routeRes with
  | Except.error _ => Except.error InitError.swapCoffee
  | Except.ok route =>
    match route.paths with
    | none => Except.error InitError.keyError
    | some _ =>
      match o.prepRes with
      | Except.error _ => Except.error InitError.swapCoffee
      | Except.ok prepared =>
        match prepared.transactions with
        | none => Except.error InitError.keyError
        | some [] => Except.error InitError.indexError
        | some (_ :: _) =>
          match o.sendRes with
          | Except.error e => Except.error (InitError.wallet e)
          | Except.ok rid => Except.ok rid

/-- `initiate_swap_transaction`: the whole body runs inside
`try ... except Exception: return None`, so every failure of the route
fetch, the preparation or the wallet send yields `None` instead of a
propagated exception. -/
def initiate_swap_transaction (o : SwapOracle) : Option Nat :=
  match initiate_body o with
  | Except.ok rid => some rid
  | Except.error _ => none

/-- A session with every key absent, as for a fresh user. -/
def baseSession : Session :=
  ⟨none, none, none, none, none, none, none, none, none, none, none, none, none⟩

/-- A demo registry as `_load_tokens` would build it from a list containing
USDT and TON. -/
def demoRegistry : Registry := [("USDT", "EQusdt"), ("TON", "EQton")]

/-- A session on the token1-editing screen. -/
def demoTokenSession : Session := { baseSession with fsm := some SwapState.token1 }

/-- A session on the amount-editing screen. -/
def demoAmountSession : Session := { baseSession with fsm := some SwapState.amount }

/-- A session in an option sub-state with previously stored options. -/
def demoOptionsSession : Session :=
  { baseSession with
    fsm := some SwapState.setting_max_splits,
    max_splits := some 1,
    max_length := some 2 }

/-- A session with a built route and an outstanding wallet request id. -/
def demoPendingSession : Session :=
  { baseSession with
    route := some ⟨7⟩,
    rpc_request_id := some "req-1",
    slippage := some (PyFloat.finite (mkRat 1 20)) }

/-- A previously loaded one-entry registry. -/
def demoOldRegistry : Registry := [("TON", "EQton")]

/-- An oracle whose route fetch raises `SwapCoffeeException` while the later
steps would succeed. -/
def demoFailOracle : SwapOracle :=
  ⟨Except.error SwapCoffeeError.requestException,
   Except.ok ⟨some [⟨"EQdex", 1, "te6cc", none⟩]⟩,
   Except.ok 5⟩

theorem char_toNat_ofNat_valid (n : Nat) (h : n.isValidChar) : (Char.ofNat n).toNat = n := by
  rw [Char.ofNat, dif_pos h]
  rfl

theorem isAsciiLower_toUpper (c : Char) : isAsciiLower (Char.toUpper c) = false := by
  by_cases h : c.toNat ≥ 97 ∧ c.toNat ≤ 122
  · have hv : (c.toNat - 32).isValidChar := Or.inl (by omega)
    simp only [Char.toUpper, if_pos h, isAsciiLower, char_toNat_ofNat_valid _ hv,
      Bool.and_eq_false_iff, decide_eq_false_iff_not]
    omega
  · simp only [Char.toUpper, if_neg h, isAsciiLower,
      Bool.and_eq_false_iff, decide_eq_false_iff_not]
    omega

/-- Uppercasing never produces a string containing an ASCII lowercase
letter, so it can never equal such a string. -/
theorem pyUpper_ne_of_hasAsciiLower (k : String) (hk : hasAsciiLower k = true)
    (t : String) : pyUpper t ≠ k := by
  intro h
  have hdata : t.data.map Char.toUpper = k.data := congrArg String.data h
  rw [hasAsciiLower, ← hdata, List.any_eq_true] at hk
  obtain ⟨c, hc, hlc⟩ := hk
  rw [List.mem_map] at hc
  obtain ⟨c0, _, rfl⟩ := hc
  rw [isAsciiLower_toUpper] at hlc
  cases hlc

/-- Case analysis of `token1_input_handler`: a valid normalized symbol is
stored and the FSM state cleared; an invalid one leaves the session exactly
unchanged and re-prompts. -/
theorem token1_input_handler_spec (TOKENS : Registry) (s : Session) (text : String) :
    if _is_valid_token TOKENS (pyUpper (pyStrip text)) then
      (token1_input_handler TOKENS s text).1.token1 = some (pyUpper (pyStrip text)) ∧
      (token1_input_handler TOKENS s text).1.fsm = none
    else
      (token1_input_handler TOKENS s text).1 = s ∧
      (token1_input_handler TOKENS s text).2 =
        [Effect.deleteMessage, Effect.render Window.invalidTokenMsg] := by
  by_cases h : _is_valid_token TOKENS (pyUpper (pyStrip text)) = true
  · rw [if_pos h]
    by_cases hs : s.slippage = none <;>
      simp [token1_input_handler, swap_menu_window, h, hs]
  · rw [if_neg h]
    simp [token1_input_handler, h]

/-- Case analysis of `token2_input_handler`, mirroring
`token1_input_handler_spec`. -/
theorem token2_input_handler_spec (TOKENS : Registry) (s : Session) (text : String) :
    if _is_valid_token TOKENS (pyUpper (pyStrip text)) then
      (token2_input_handler TOKENS s text).1.token2 = some (pyUpper (pyStrip text)) ∧
      (token2_input_handler TOKENS s text).1.fsm = none
    else
      (token2_input_handler TOKENS s text).1 = s ∧
      (token2_input_handler TOKENS s text).2 =
        [Effect.deleteMessage, Effect.render Window.invalidTokenMsg] := by
  by_cases h : _is_valid_token TOKENS (pyUpper (pyStrip text)) = true
  · rw [if_pos h]
    by_cases hs : s.slippage = none <;>
      simp [token2_input_handler, swap_menu_window, h, hs]
  · rw [if_neg h]
    simp [token2_input_handler, h]

/-- C1 (amended): `confirm_transaction_handler` contains no
`pendingRequestId` guard — it never reads `rpc_request_id` and leaves the
session unchanged — so two back-to-back Confirm presses each run
prepare-then-send: whenever the preparation succeeds, exactly two
`sendTransaction` calls are issued, regardless of any pending request. -/
theorem C1_confirm_twice_sends_twice (s : Session) (o : TxOracle)
    (h : o.prepOk = true) :
    countSends (confirm_twice o s).2 = 2 ∧ (confirm_twice o s).1 = s := by
  obtain ⟨p, q⟩ := o
  have hp : p = true := h
  subst hp
  cases q
  · exact ⟨rfl, rfl⟩
  · exact ⟨rfl, rfl⟩

/-- C1 witness: the amended theorem at a session that already carries a
pending request id, with both external calls succeeding. -/
theorem C1_confirm_twice_sends_twice_witness :
    (⟨true, true⟩ : TxOracle).prepOk = true ∧
    countSends (confirm_twice ⟨true, true⟩ demoPendingSession).2 = 2 :=
  ⟨rfl, (C1_confirm_twice_sends_twice demoPendingSession ⟨true, true⟩ rfl).1⟩

/-- C1 counterexample: on a session in route confirmation with a stored
route — even one whose `rpc_request_id` is already set — a double-tap of
Confirm yields two `sendTransaction` calls, not exactly one, because the
handler has no `pendingRequestId is null` requirement. -/
theorem C1_counterexample_double_send :
    countSends (confirm_twice ⟨true, true⟩ demoPendingSession).2 = 2 ∧
    ¬ countSends (confirm_twice ⟨true, true⟩ demoPendingSession).2 = 1 := by
  decide

/-- C2 (amended): a refresh whose `get_tokens()` call fails with a
transport error clears the registry to empty — the `except` branch of
`_load_tokens` assigns `TOKENS = {}` — rather than retaining the last
successfully loaded mapping. -/
theorem C2_failed_refresh_clears_registry (old : Registry) (e : SwapCoffeeError) :
    _load_tokens old (Except.error e) = [] := rfl

/-- C2 counterexample: after a successful load of a one-entry registry, a
failing refresh leaves the registry empty, not equal to the last-known-good
mapping. -/
theorem C2_counterexample_registry_cleared :
    _load_tokens demoOldRegistry (Except.error SwapCoffeeError.requestException) = [] ∧
    ¬ _load_tokens demoOldRegistry (Except.error SwapCoffeeError.requestException)
        = demoOldRegistry := by
  decide

/-- C3: the option guards misuse Python's bitwise `|`, so out-of-range
values are accepted: `set_max_splits` stores 0 (its own error text demands
1 to 20), `set_max_length` stores 0 and 1 (its error text demands 2 to 5),
and `set_slippage` stores `nan` (outside [0,1]); an in-range rejection such
as 21 for maxSplits does leave the previous value unchanged. -/
theorem C3_out_of_range_options_accepted :
    (set_max_splits demoOptionsSession "0").1.max_splits = some 0 ∧
    (set_max_length demoOptionsSession "1").1.max_length = some 1 ∧
    (set_max_length demoOptionsSession "0").1.max_length = some 0 ∧
    (set_max_splits demoOptionsSession "21").1.max_splits = some 1 ∧
    (set_slippage demoOptionsSession "nan").1.slippage = some PyFloat.nan := by
  decide

/-- C4: `amount_input_handler` accepts the non-finite inputs `nan` and
`inf` — `float()` parses them and neither compares `<= 0` — storing them as
the draft amount and leaving the editing screen, instead of rejecting them. -/
theorem C4_nonfinite_amount_accepted :
    (amount_input_handler demoAmountSession "nan").1.amount = some PyFloat.nan ∧
    (amount_input_handler demoAmountSession "nan").1.fsm = none ∧
    (amount_input_handler demoAmountSession "inf").1.amount = some PyFloat.inf ∧
    (amount_input_handler demoAmountSession "-1").1 = demoAmountSession ∧
    (amount_input_handler demoAmountSession "abc").1 = demoAmountSession := by
  decide

/-- C5: the request body built by `get_swap_route` consists of exactly the
`input_token`, `output_token` and `input_amount`/`output_amount` keys; no
`max_splits` or `max_length` key is ever included, and the function's
signature has no parameters for them. -/
theorem C5_route_request_lacks_constraints (input_address output_address : String)
    (amount : PyFloat) (is_input : Bool) :
    payloadKeys (get_swap_route input_address output_address amount is_input) =
      ["input_token", "output_token",
       if is_input then "input_amount" else "output_amount"] ∧
    ¬ "max_splits" ∈ payloadKeys (get_swap_route input_address output_address amount is_input) ∧
    ¬ "max_length" ∈ payloadKeys (get_swap_route input_address output_address amount is_input) := by
  cases is_input <;> simp [get_swap_route, payloadKeys]

/-- C6 (amended): the `Event.DISCONNECT` handler renders the connect-wallet
(Disconnected) screen but performs no session update at all: every field,
including `rpc_request_id` and `route`, is left exactly as it was. -/
theorem C6_disconnect_renders_only (s : Session) :
    (disconnect_event s).1 = s ∧
    (disconnect_event s).2 = [Effect.connectWallet, Effect.render Window.connectWallet] :=
  ⟨rfl, rfl⟩

/-- C6 counterexample: on a session with a pending request id and a stored
route, the disconnect event leaves both set — they are not cleared. -/
theorem C6_counterexample_not_cleared :
    (disconnect_event demoPendingSession).1.rpc_request_id = some "req-1" ∧
    (disconnect_event demoPendingSession).1.route = some ⟨7⟩ ∧
    ¬ (disconnect_event demoPendingSession).1.rpc_request_id = none := by
  decide

/-- C7 (amended): the generic Cancel button never issues a cancel-pending
call (it completes and shows the main menu whatever the pending state);
only the `cancel_transaction` button cancels a pending request, and it
transitions away only when the cancel call does not raise — a raising
cancel aborts the handler after the cancel attempt, leaving the session
unchanged and unrendered. -/
theorem C7_cancel_paths (s : Session) :
    (¬ Effect.cancelPending ∈ (cancel_handler s).effects ∧
      (cancel_handler s).completed = true) ∧
    cancel_transaction_handler true false s =
      HandlerOutcome.ok { s with back_state := some "main_menu" }
        [Effect.cancelPending, Effect.render Window.mainMenu] ∧
    cancel_transaction_handler true true s =
      HandlerOutcome.raised s [Effect.cancelPending] := by
  refine ⟨⟨?_, rfl⟩, rfl, rfl⟩
  simp [cancel_handler, wallet_connected_window, HandlerOutcome.effects]

/-- C7 counterexample: with a pending wallet request, the generic Cancel
button issues no cancel-pending call at all, and a `cancel_transaction`
press whose cancel call raises does not transition away (the handler
aborts with the session unchanged). -/
theorem C7_counterexample_cancel :
    ¬ Effect.cancelPending ∈ (cancel_handler demoPendingSession).effects ∧
    cancel_transaction_handler true true demoPendingSession =
      HandlerOutcome.raised demoPendingSession [Effect.cancelPending] ∧
    (cancel_transaction_handler true true demoPendingSession).completed = false := by
  decide

/-- C8: token text input is stripped and uppercased before the registry
lookup; a hit stores the normalized symbol and leaves the editing screen
(FSM state cleared), while a miss leaves the session exactly unchanged —
still on the token1-editing screen with the draft untouched — and renders
the validation error.  Concretely, "usdt" and " TON " resolve against the
USDT/TON registry while "FAKE" is rejected in place. -/
theorem C8_token_normalization_and_validation :
    (∀ (TOKENS : Registry) (s : Session) (text : String),
      if _is_valid_token TOKENS (pyUpper (pyStrip text)) then
        (token1_input_handler TOKENS s text).1.token1 = some (pyUpper (pyStrip text)) ∧
        (token1_input_handler TOKENS s text).1.fsm = none
      else
        (token1_input_handler TOKENS s text).1 = s ∧
        (token1_input_handler TOKENS s text).2 =
          [Effect.deleteMessage, Effect.render Window.invalidTokenMsg]) ∧
    (token1_input_handler demoRegistry demoTokenSession "usdt").1.token1 = some "USDT" ∧
    (token1_input_handler demoRegistry demoTokenSession "usdt").1.fsm = none ∧
    (token1_input_handler demoRegistry demoTokenSession " TON ").1.token1 = some "TON" ∧
    (token1_input_handler demoRegistry demoTokenSession "FAKE").1 = demoTokenSession ∧
    demoTokenSession.fsm = some SwapState.token1 :=
  ⟨fun TOKENS s text => token1_input_handler_spec TOKENS s text,
   by decide, by decide, by decide, by decide, by decide⟩

/-- C9: a registry key containing an ASCII lowercase letter (as `tsTON` is
delivered by the token-list API and stored verbatim by `_load_tokens`) can
never be produced by the input normalization of any entry path — guided
token1/token2 entry strips and uppercases, the free-text intent path
uppercases — so no text input ever resolves such a key. -/
theorem C9_lowercase_registry_key_unreachable (l : List TokenInfo) (k : String)
    (s : Session) (hk : k ∈ registryKeys (buildTokens l))
    (hl : hasAsciiLower k = true) :
    ∀ text : String,
      pyUpper (pyStrip text) ≠ k ∧
      pyUpper text ≠ k ∧
      ((token1_input_handler (buildTokens l) s text).1.token1 = some k →
        s.token1 = some k) ∧
      ((token2_input_handler (buildTokens l) s text).1.token2 = some k →
        s.token2 = some k) := by
  intro text
  have h1 : pyUpper (pyStrip text) ≠ k := pyUpper_ne_of_hasAsciiLower k hl (pyStrip text)
  have h2 : pyUpper text ≠ k := pyUpper_ne_of_hasAsciiLower k hl text
  refine ⟨h1, h2, ?_, ?_⟩
  · have hspec := token1_input_handler_spec (buildTokens l) s text
    by_cases hv : _is_valid_token (buildTokens l) (pyUpper (pyStrip text)) = true
    · rw [if_pos hv] at hspec
      intro hset
      rw [hspec.1] at hset
      exact absurd (Option.some.inj hset) h1
    · rw [if_neg hv] at hspec
      intro hset
      rw [hspec.1] at hset
      exact hset
  · have hspec := token2_input_handler_spec (buildTokens l) s text
    by_cases hv : _is_valid_token (buildTokens l) (pyUpper (pyStrip text)) = true
    · rw [if_pos hv] at hspec
      intro hset
      rw [hspec.1] at hset
      exact absurd (Option.some.inj hset) h1
    · rw [if_neg hv] at hspec
      intro hset
      rw [hspec.1] at hset
      exact hset

/-- C9 witness: the theorem applied to a one-entry `tsTON` registry and the
input `"tston"`, discharging both hypotheses concretely. -/
theorem C9_lowercase_registry_key_unreachable_witness :
    "tsTON" ∈ registryKeys (buildTokens [⟨"tsTON", "EQts"⟩]) ∧
    hasAsciiLower "tsTON" = true ∧
    pyUpper (pyStrip "tston") ≠ "tsTON" :=
  ⟨by decide, by decide,
   (C9_lowercase_registry_key_unreachable [⟨"tsTON", "EQts"⟩] "tsTON" baseSession
     (by decide) (by decide) "tston").1⟩

/-- C10: `initiate_swap_transaction` wraps its whole body in
`try ... except Exception: return None`, so a failure of the route fetch,
of the transaction preparation, or of the wallet send always yields `None`
— no `SwapCoffeeException` or wallet-protocol error reaches the caller —
while a fully successful body returns the send response. -/
theorem C10_initiate_swallows_failures (o : SwapOracle) :
    (∀ e : SwapCoffeeError, o.routeRes = Except.error e →
      initiate_swap_transaction o = none) ∧
    (∀ e : SwapCoffeeError, o.prepRes = Except.error e →
      initiate_swap_transaction o = none) ∧
    (∀ e : WalletError, o.sendRes = Except.error e →
      initiate_swap_transaction o = none) ∧
    (∀ e : InitError, initiate_body o = Except.error e →
      initiate_swap_transaction o = none) ∧
    (∀ r : Nat, initiate_body o = Except.ok r →
      initiate_swap_transaction o = some r) := by
  obtain ⟨rr, pr, sr⟩ := o
  refine ⟨?_, ?_, ?_, ?_, ?_⟩
  · intro e he
    have : rr = Except.error e := he
    subst this
    rfl
  · intro e he
    have : pr = Except.error e := he
    subst this
    rcases rr with e2 | rd
    · rfl
    · rcases rd with ⟨_ | ps⟩
      · rfl
      · rfl
  · intro e he
    have : sr = Except.error e := he
    subst this
    rcases rr with e2 | rd
    · rfl
    · rcases rd with ⟨_ | ps⟩
      · rfl
      · rcases pr with e3 | pd
        · rfl
        · rcases pd with ⟨_ | txs⟩
          · rfl
          · rcases txs with _ | ⟨tx, rest⟩
            · rfl
            · rfl
  · intro e he
    unfold initiate_swap_transaction
    rw [he]
  · intro r hr
    unfold initiate_swap_transaction
    rw [hr]

/-- C10 witness: the theorem at an oracle whose route fetch raises
`SwapCoffeeException`, discharging the hypothesis concretely. -/
theorem C10_initiate_swallows_failures_witness :
    demoFailOracle.routeRes = Except.error SwapCoffeeError.requestException ∧
    initiate_swap_transaction demoFailOracle = none :=
  ⟨rfl, (C10_initiate_swallows_failures demoFailOracle).1
    SwapCoffeeError.requestException rfl⟩
